import Mathlib

/-!
Verification of the d11-react-native-mqtt connection manager
(`src/Mqtt/MqttClient.ts`) against its natural-language specification.

The TypeScript class `MqttClient` is embedded shallowly: its mutable
fields become a Lean structure, each method becomes a state-passing
function, and every call into the native transport module
(`MqttJSIModule`) or timer scheduling becomes an element of an explicit
trace.  The event bus (`EventEmitter.ts`), the backoff helper
(`MqttClient.utils.ts`) and the constants/interface files are part of
the repository but are not among the provided sources; they are
modelled from the specification and marked as such in doc comments.
-/

namespace Mqtt

/-- JavaScript `x || d` for an optional number: `undefined` and `0` are
falsy, so they yield the default. -/
def jsOrNat (x : Option Nat) (d : Nat) : Nat :=
  match x with
  | some n => if n = 0 then d else n
  | none => d

/-- JavaScript `x || d` for an optional string: `undefined` and the empty
string are falsy. -/
def jsOrStr (x : Option String) (d : String) : String :=
  match x with
  | some s => if s = "" then d else s
  | none => d

/-- JavaScript `x || d` for an optional boolean: `undefined` and `false`
are falsy, so only an explicit `true` survives. -/
def jsOrBool (x : Option Bool) (d : Bool) : Bool :=
  match x with
  | some b => if b then b else d
  | none => d

/-- JavaScript truthiness of an optional boolean (`options?.flag`). -/
def jsTruthy (x : Option Bool) : Bool :=
  x.getD false

/-- One field of the JavaScript object spread `\x7b...a, ...b\x7d`: a key
present in `b` overrides the one in `a`. -/
def jsMergeField {α : Type} (old new : Option α) : Option α :=
  match new with
  | some v => some v
  | none => old

/-- Modelled from the spec: the options bag of `MqttClient.interface.ts`
(not among the provided sources) — keep-alive interval, username/password,
clean-session flag, auto-reconnect flag, retry count ceiling, backoff
base/cap, jitter flag, plus the SSL flag read by the constructor.  All
fields are optional, as in the TypeScript interface. -/
structure MqttOptions where
  enableSslConfig : Option Bool := none
  keepAlive : Option Nat := none
  username : Option String := none
  password : Option String := none
  cleanSession : Option Bool := none
  autoReconnect : Option Bool := none
  retryCount : Option Nat := none
  backoffTime : Option Nat := none
  maxBackoffTime : Option Nat := none
  jitter : Option Bool := none
deriving DecidableEq

/-- Shallow merge of two option bags, `\x7b...old, ...new\x7d`. -/
def mergeOptions (old new : MqttOptions) : MqttOptions where
  enableSslConfig := jsMergeField old.enableSslConfig new.enableSslConfig
  keepAlive := jsMergeField old.keepAlive new.keepAlive
  username := jsMergeField old.username new.username
  password := jsMergeField old.password new.password
  cleanSession := jsMergeField old.cleanSession new.cleanSession
  autoReconnect := jsMergeField old.autoReconnect new.autoReconnect
  retryCount := jsMergeField old.retryCount new.retryCount
  backoffTime := jsMergeField old.backoffTime new.backoffTime
  maxBackoffTime := jsMergeField old.maxBackoffTime new.maxBackoffTime
  jitter := jsMergeField old.jitter new.jitter

/-- Connection states of `CONNECTION_STATE` in `MqttClient.constants.ts`. -/
inductive CONNECTION_STATE where
  | connected
  | connecting
  | disconnected
deriving DecidableEq

/-- Modelled from the spec: the event-name constants of `MQTT_EVENTS` in
`MqttClient.constants.ts` (not among the provided sources).  Only their
distinctness and their role as key suffixes matter; the concrete strings
are placeholders for the constant values. -/
def CONNECTED_EVENT : String := "connected_mqtt"

/-- Modelled from the spec: the disconnected-event suffix of `MQTT_EVENTS`. -/
def DISCONNECTED_EVENT : String := "disconnected_mqtt"

/-- Modelled from the spec: the subscription-success suffix of `MQTT_EVENTS`. -/
def SUBSCRIPTION_SUCCESS_EVENT : String := "subscribe_success"

/-- Modelled from the spec: the subscription-failure suffix of `MQTT_EVENTS`. -/
def SUBSCRIPTION_FAILED_EVENT : String := "subscribe_failed"

/-- Modelled from the spec: the process-wide event bus of `EventEmitter.ts`
(not among the provided sources).  `addListener` registers a handler for a
string event identifier and returns a token removing exactly that handler
instance; listeners are kept in registration order.  Handlers themselves are
modelled symbolically: the registry records which identifier each listener
id is registered under. -/
structure EventEmitter where
  nextId : Nat := 0
  listeners : List (Nat × String) := []
deriving DecidableEq

/-- Modelled from the spec: register a handler under an event identifier;
returns the new registry and the fresh listener id backing the returned
removal token. -/
def addListener (eventName : String) (b : EventEmitter) : EventEmitter × Nat :=
  ({ nextId := b.nextId + 1, listeners := b.listeners ++ [(b.nextId, eventName)] }, b.nextId)

/-- Modelled from the spec: the `remove()` of the token returned by
`addListener` — deregisters exactly that handler instance. -/
def removeListener (id : Nat) (b : EventEmitter) : EventEmitter :=
  { b with listeners := b.listeners.filter (fun p => p.1 != id) }

/-- Modelled from the spec: `removeAllListeners(eventId)` clears every
handler registered under that identifier. -/
def removeAllListeners (eventName : String) (b : EventEmitter) : EventEmitter :=
  { b with listeners := b.listeners.filter (fun p => p.2 != eventName) }

/-- Well-formedness of the registry: every registered listener id was
allocated before the next fresh id. -/
def busWF (b : EventEmitter) : Prop :=
  ∀ p ∈ b.listeners, p.1 < b.nextId

instance (b : EventEmitter) : Decidable (busWF b) :=
  inferInstanceAs (Decidable (∀ p ∈ b.listeners, p.1 < b.nextId))

/-- Modelled from the spec: the pure backoff calculator of
`MqttClient.utils.ts` (not among the provided sources), from spec section
4.2 — delay = min(cap, base × 2^(attempt−1)) for attempt ≥ 1, an attempt
≤ 0 is treated as attempt 1, and a cap or base of 0 yields delay 0. -/
def computeDelay (baseDelayMs attempt capMs : Nat) : Nat :=
  min capMs (baseDelayMs * 2 ^ (max attempt 1 - 1))

/-- Modelled from the spec: `getMqttBackoffTime` as called by `connection`
with possibly-absent option fields (absent values fall back to the
permissive zero defaults of spec section 4.2).  With jitter enabled the
spec prescribes a value uniformly sampled in [0, delay]; this is modelled
by clamping a caller-supplied sample.  Every claim below exercises the
jitter-disabled branch. -/
def getMqttBackoffTime (backoffTime : Option Nat) (attempt : Nat)
    (maxBackoffTime : Option Nat) (jitter : Option Bool) (sample : Nat) : Nat :=
  let d := computeDelay (backoffTime.getD 0) attempt (maxBackoffTime.getD 0)
  if jsTruthy jitter then min sample d else d

/-- Calls into the native transport module `MqttJSIModule`, with the
argument values the TypeScript code passes. -/
inductive NativeCall where
  | createMqtt (clientId host : String) (port : Nat) (enableSslConfig : Bool)
  | connectMqtt (clientId : String) (keepAlive : Nat) (username password : String)
      (cleanSession : Bool)
  | disconnectMqtt (clientId : String)
  | subscribeMqtt (eventId clientId topic : String) (qos : Nat)
  | removeMqtt (clientId : String)
deriving DecidableEq

/-- Observable effects of a client operation: native-module calls, retry
timers being scheduled (`setTimeout` with its delay), and invocations of
the application-supplied reconnect interceptor (with the reason-code
argument the client passes to it). -/
inductive TraceEv where
  | native (call : NativeCall)
  | schedule (delayMs : Nat)
  | reconnectInterceptorCall (reasonCode : Option Nat)
deriving DecidableEq

/-- The mutable fields of the `MqttClient` class.  `retryTimer` is `some d`
exactly when a retry timer scheduled with delay `d` is pending; reason
codes are natural numbers (the numeric `Mqtt5ReasonCode` enum);
`hasReconnectInterceptor` records whether `setOnReconnectIntercepter`
installed a callback (the code invokes it by optional chaining). -/
structure MqttClient where
  clientId : String
  host : String
  port : Nat
  options : Option MqttOptions
  retryTimer : Option Nat := none
  currentRetryCount : Nat := 0
  mqtt5DisconnectReasonCode : Option Nat := none
  tag : Nat := 0
  connectionStatus : CONNECTION_STATE := CONNECTION_STATE.disconnected
  hasReconnectInterceptor : Bool := false
deriving DecidableEq

/-- Result of a client operation: the updated client state and the trace
of observable effects. -/
structure StepResult where
  client : MqttClient
  trace : List TraceEv
deriving DecidableEq

/-- Result of constructing a client: state, updated event bus, trace. -/
structure CreateResult where
  client : MqttClient
  bus : EventEmitter
  trace : List TraceEv
deriving DecidableEq

/-- Result of a bus-only operation (subscription-handle removal, client
removal): updated event bus and trace. -/
structure BusStepResult where
  bus : EventEmitter
  trace : List TraceEv
deriving DecidableEq

/-- Result of `subscribe`: new client state (bumped tag), updated bus, the
generated event identifier, the three listener ids behind the returned
`remove` closure, and the trace. -/
structure SubscribeResult where
  client : MqttClient
  bus : EventEmitter
  eventId : String
  listenerIds : Nat × Nat × Nat
  trace : List TraceEv
deriving DecidableEq

/-- The `MqttClient` constructor (lines 45–119): bail out when the host is
empty; otherwise call `createMqtt` and register the connected-event
listener, plus the disconnected-event interceptor when `autoReconnect` is
truthy.  The handler bodies themselves are `handleConnectedEvent` and
`handleAutoReconnectDisconnect` below. -/
def mkMqttClient (clientId host : String) (port : Nat)
    (options : Option MqttOptions) (bus : EventEmitter) : CreateResult :=
  let c : MqttClient := { clientId := clientId, host := host, port := port, options := options }
  if host = "" then
    { client := c, bus := bus, trace := [] }
  else
    let ev := TraceEv.native (NativeCall.createMqtt clientId host port
      ((options.bind MqttOptions.enableSslConfig).getD false))
    let (bus1, _) := addListener (clientId ++ CONNECTED_EVENT) bus
    if jsTruthy (options.bind MqttOptions.autoReconnect) then
      let (bus2, _) := addListener (clientId ++ DISCONNECTED_EVENT) bus1
      { client := c, bus := bus2, trace := [ev] }
    else
      { client := c, bus := bus1, trace := [ev] }

/-- Body of the connected-event callback the constructor registers
(lines 72–85): zero the retry count, mark the client connected, clear the
stored disconnect reason code. -/
def handleConnectedEvent (c : MqttClient) : MqttClient :=
  { c with currentRetryCount := 0,
           connectionStatus := CONNECTION_STATE.connected,
           mqtt5DisconnectReasonCode := none }

/-- The `connectMqtt` native call issued by `connection` (lines 142–147),
with the JavaScript `||` defaults applied to each option field. -/
def connectCallOf (c : MqttClient) : NativeCall :=
  NativeCall.connectMqtt c.clientId
    (jsOrNat (c.options.bind MqttOptions.keepAlive) 60)
    (jsOrStr (c.options.bind MqttOptions.username) "")
    (jsOrStr (c.options.bind MqttOptions.password) "")
    (jsOrBool (c.options.bind MqttOptions.cleanSession) true)

/-- `resetConnectVariables` (lines 200–203). -/
def resetConnectVariables (c : MqttClient) : MqttClient :=
  { c with currentRetryCount := 0, connectionStatus := CONNECTION_STATE.connecting }

/-- `resetOptions` (lines 216–220): shallow-merge new options over the
current bag when present. -/
def resetOptions (newOptions : Option MqttOptions) (c : MqttClient) : MqttClient :=
  match newOptions with
  | none => c
  | some o =>
    { c with options := some (match c.options with
        | none => o
        | some old => mergeOptions old o) }

/-- The private `connection` method (lines 125–169): return unless the
status is CONNECTING; issue `connectMqtt`; clear the pending timer; then,
when `retryCount` is truthy and the current count is below it, schedule a
retry after the backoff delay computed from the current count. -/
def connection (sample : Nat) (c : MqttClient) : StepResult :=
  if c.connectionStatus ≠ CONNECTION_STATE.connecting then
    { client := c, trace := [] }
  else
    let call := TraceEv.native (connectCallOf c)
    let cleared := { c with retryTimer := none }
    match c.options with
    | none => { client := cleared, trace := [call] }
    | some o =>
      match o.retryCount with
      | none => { client := cleared, trace := [call] }
      | some r =>
        if r ≠ 0 ∧ c.currentRetryCount < r then
          let d := getMqttBackoffTime o.backoffTime c.currentRetryCount
            o.maxBackoffTime o.jitter sample
          { client := { cleared with retryTimer := some d }, trace := [call, TraceEv.schedule d] }
        else
          { client := cleared, trace := [call] }

/-- The public `connect` method (lines 235–239). -/
def connect (options : Option MqttOptions) (sample : Nat) (c : MqttClient) : StepResult :=
  connection sample (resetOptions options (resetConnectVariables c))

/-- `setOnReconnectIntercepter` (lines 245–251): installs the
application-supplied interceptor. -/
def setOnReconnectIntercepter (c : MqttClient) : MqttClient :=
  { c with hasReconnectInterceptor := true }

/-- Body of the retry timer callback scheduled by `connection`
(lines 154–166): increment the retry count; query the native status;
unless it reports CONNECTED, ask the reconnect interceptor (when
installed) for new options, merge them in, and call `connection` again.
`nativeStatus` is the transport's answer to `getConnectionStatusMqtt`
and `interceptorOptions` is what the installed interceptor resolves to. -/
def fireRetryTimer (nativeStatus : CONNECTION_STATE)
    (interceptorOptions : Option MqttOptions) (sample : Nat)
    (c : MqttClient) : StepResult :=
  let c1 := { c with retryTimer := none, currentRetryCount := c.currentRetryCount + 1 }
  if nativeStatus ≠ CONNECTION_STATE.connected then
    let tr := if c.hasReconnectInterceptor then
        [TraceEv.reconnectInterceptorCall c.mqtt5DisconnectReasonCode]
      else []
    let newOptions := if c.hasReconnectInterceptor then interceptorOptions else none
    let r := connection sample (resetOptions newOptions c1)
    { client := r.client, trace := tr ++ r.trace }
  else
    { client := c1, trace := [] }

/-- Body of the disconnect interceptor the constructor registers when
`autoReconnect` is set (lines 98–118): when the client was CONNECTED, ask
the reconnect interceptor (when installed) for new options, passing the
STORED `mqtt5DisconnectReasonCode`, and call `connect` with the result;
in every case store the incoming event's reason code afterwards. -/
def handleAutoReconnectDisconnect (ackReasonCode : Nat)
    (interceptorOptions : Option MqttOptions) (sample : Nat)
    (c : MqttClient) : StepResult :=
  if c.connectionStatus = CONNECTION_STATE.connected then
    let tr := if c.hasReconnectInterceptor then
        [TraceEv.reconnectInterceptorCall c.mqtt5DisconnectReasonCode]
      else []
    let newOptions := if c.hasReconnectInterceptor then interceptorOptions else none
    let r := connect newOptions sample c
    { client := { r.client with mqtt5DisconnectReasonCode := some ackReasonCode },
      trace := tr ++ r.trace }
  else
    { client := { c with mqtt5DisconnectReasonCode := some ackReasonCode }, trace := [] }

/-- The `disconnect` method (lines 389–392). -/
def disconnect (c : MqttClient) : StepResult :=
  { client := { c with connectionStatus := CONNECTION_STATE.disconnected },
    trace := [TraceEv.native (NativeCall.disconnectMqtt c.clientId)] }

/-- The private `getIdPrefix` method (lines 208–210). -/
def getIdPrefix (clientId : String) : String :=
  "mqtt_client#" ++ clientId

/-- `getMqttSubscribeEventId` (lines 227–229): pre-increments the session
tag and builds the identifier from prefix, topic, QoS and the new tag. -/
def getMqttSubscribeEventId (topic : String) (qos : Nat) (c : MqttClient) :
    MqttClient × String :=
  let t := c.tag + 1
  ({ c with tag := t },
    getIdPrefix c.clientId ++ "#subscribe_mqtt#" ++ topic ++ "#" ++
      Nat.repr qos ++ "#" ++ Nat.repr t)

/-- The `subscribe` method (lines 331–372): generate the event id, issue
the native subscribe, and register the message, success and failure
listeners under `eventId`, `eventId ++ SUCCESS`, `eventId ++ FAILURE`. -/
def subscribe (topic : String) (qos : Nat) (c : MqttClient)
    (bus : EventEmitter) : SubscribeResult :=
  let (c1, eventId) := getMqttSubscribeEventId topic qos c
  let call := TraceEv.native (NativeCall.subscribeMqtt eventId c.clientId topic qos)
  let (bus1, i1) := addListener eventId bus
  let (bus2, i2) := addListener (eventId ++ SUBSCRIPTION_SUCCESS_EVENT) bus1
  let (bus3, i3) := addListener (eventId ++ SUBSCRIPTION_FAILED_EVENT) bus2
  { client := c1, bus := bus3, eventId := eventId, listenerIds := (i1, i2, i3),
    trace := [call] }

/-- The `remove` closure returned by `subscribe` (lines 365–371): remove
the three listeners registered for this subscription and nothing else; no
native call is made. -/
def subscriptionRemove (ids : Nat × Nat × Nat) (bus : EventEmitter) : BusStepResult :=
  { bus := removeListener ids.2.2 (removeListener ids.2.1 (removeListener ids.1 bus)),
    trace := [] }

/-- The `remove` method of the client (lines 397–406): native teardown,
then `removeAllListeners` on the disconnected- and connected-event
channels. -/
def removeMqttClient (c : MqttClient) (bus : EventEmitter) : BusStepResult :=
  { bus := removeAllListeners (c.clientId ++ CONNECTED_EVENT)
      (removeAllListeners (c.clientId ++ DISCONNECTED_EVENT) bus),
    trace := [TraceEv.native (NativeCall.removeMqtt c.clientId)] }

/-- Tag carried by the disconnect callback (lines 309–313). -/
inductive DisconnectType where
  | forceDisconnected
  | autoDisconnected
deriving DecidableEq

/-- Body of the listener registered by `setOnConnectFailureCallback`
(lines 275–286): the user callback fires, with the event's reason code,
exactly when the status is CONNECTING. -/
def onConnectFailureDispatch (reasonCode : Nat) (c : MqttClient) : Option Nat :=
  if c.connectionStatus = CONNECTION_STATE.connecting then some reasonCode else none

/-- Body of the listener registered by `setOnDisconnectCallback`
(lines 296–320): unless the status is CONNECTING, the user callback fires
with the reason code, the session options, the disconnect type
(`forceDisconnected` when already DISCONNECTED, else `autoDisconnected`)
and the current retry count. -/
def onDisconnectDispatch (reasonCode : Nat) (c : MqttClient) :
    Option (Nat × Option MqttOptions × DisconnectType × Nat) :=
  if c.connectionStatus ≠ CONNECTION_STATE.connecting then
    some (reasonCode, c.options,
      (if c.connectionStatus = CONNECTION_STATE.disconnected then
        DisconnectType.forceDisconnected
      else DisconnectType.autoDisconnected),
      c.currentRetryCount)
  else none

/-- Delays of the retry timers scheduled in a trace. -/
def scheduleDelays (tr : List TraceEv) : List Nat :=
  tr.filterMap fun e => match e with
    | TraceEv.schedule d => some d
    | _ => none

/-! Injectivity of the decimal rendering used inside subscription event
identifiers (`Nat.repr`, which backs string interpolation of numbers). -/

/-- Structural reformulation of the digit list `Nat.toDigits 10` produces. -/
def natDigits (n : Nat) : List Char :=
  if n < 10 then [Nat.digitChar (n % 10)]
  else natDigits (n / 10) ++ [Nat.digitChar (n % 10)]
decreasing_by exact Nat.div_lt_self (by omega) (by omega)

theorem toDigitsCore_eq_natDigits :
    ∀ (fuel n : Nat) (l : List Char), n < fuel →
      Nat.toDigitsCore 10 fuel n l = natDigits n ++ l := by
  intro fuel
  induction fuel with
  | zero => intro n l h; omega
  | succ f ih =>
    intro n l h
    have hstep : Nat.toDigitsCore 10 (f + 1) n l =
        if n / 10 = 0 then Nat.digitChar (n % 10) :: l
        else Nat.toDigitsCore 10 f (n / 10) (Nat.digitChar (n % 10) :: l) := rfl
    rw [hstep]
    by_cases hz : n / 10 = 0
    · rw [if_pos hz]
      have hn : natDigits n = [Nat.digitChar (n % 10)] := by
        rw [natDigits]; rw [if_pos (by omega)]
      rw [hn]
      rfl
    · rw [if_neg hz]
      have hlt : n / 10 < f := by
        have hd : n / 10 < n := Nat.div_lt_self (by omega) (by omega)
        omega
      rw [ih (n / 10) (Nat.digitChar (n % 10) :: l) hlt]
      have hn : natDigits n = natDigits (n / 10) ++ [Nat.digitChar (n % 10)] := by
        rw [natDigits]; rw [if_neg (by omega)]
      rw [hn]
      simp [List.append_assoc]

theorem natRepr_eq_natDigits (n : Nat) : Nat.repr n = (natDigits n).asString := by
  rw [Nat.repr, Nat.toDigits, toDigitsCore_eq_natDigits (n + 1) n [] (by omega)]
  simp

/-- Numeric value of a digit character. -/
def digitVal (c : Char) : Nat := c.toNat - 48

theorem digitVal_digitChar (d : Nat) (h : d < 10) :
    digitVal (Nat.digitChar d) = d := by
  interval_cases d <;> rfl

theorem foldl_natDigits (n : Nat) :
    ∀ init : Nat,
      (natDigits n).foldl (fun acc c => acc * 10 + digitVal c) init =
        init * 10 ^ (natDigits n).length + n := by
  induction n using Nat.strong_induction_on with
  | _ n ih =>
    intro init
    by_cases h : n < 10
    · rw [natDigits, if_pos h]
      simp [List.foldl, digitVal_digitChar (n % 10) (by omega)]
      omega
    · rw [natDigits, if_neg h]
      rw [List.foldl_append]
      rw [ih (n / 10) (Nat.div_lt_self (by omega) (by omega)) init]
      simp only [List.foldl, List.length_append, List.length_cons, List.length_nil]
      rw [digitVal_digitChar (n % 10) (by omega)]
      rw [pow_succ]
      have hnm : n % 10 + 10 * (n / 10) = n := Nat.mod_add_div n 10
      ring_nf
      omega

theorem natDigits_injective {a b : Nat} (h : natDigits a = natDigits b) : a = b := by
  have ha := foldl_natDigits a 0
  have hb := foldl_natDigits b 0
  rw [h] at ha
  omega

theorem natRepr_injective {a b : Nat} (h : Nat.repr a = Nat.repr b) : a = b := by
  rw [natRepr_eq_natDigits, natRepr_eq_natDigits] at h
  apply natDigits_injective
  have := congrArg String.data h
  simpa [List.asString] using this

theorem append_natRepr_ne (p : String) {a b : Nat} (h : a ≠ b) :
    p ++ Nat.repr a ≠ p ++ Nat.repr b := by
  intro he
  apply h
  apply natRepr_injective
  have hd := congrArg String.data he
  simp only [String.data_append] at hd
  exact String.ext (List.append_cancel_left hd)

/-! Concrete scenarios used by witnesses and counterexamples. -/

/-- Options of the bounded-retry scenario: retryCount 3, backoffTime 100,
jitter disabled, cap given by the parameter. -/
def retryScenarioOptions (cap : Nat) : MqttOptions :=
  { retryCount := some 3, backoffTime := some 100, maxBackoffTime := some cap,
    jitter := some false }

/-- Client "c1" connecting to broker:1883 with the bounded-retry options. -/
def retryScenarioClient (cap : Nat) : MqttClient :=
  (mkMqttClient "c1" "broker" 1883 (some (retryScenarioOptions cap)) {}).client

/-- The bounded-retry scenario: `connect()`, then the retry timer fires three
times while the transport keeps reporting a non-CONNECTED status. -/
def retryScenarioRun (cap : Nat) : StepResult :=
  let r0 := connect none 0 (retryScenarioClient cap)
  let r1 := fireRetryTimer CONNECTION_STATE.connecting none 0 r0.client
  let r2 := fireRetryTimer CONNECTION_STATE.connecting none 0 r1.client
  let r3 := fireRetryTimer CONNECTION_STATE.connecting none 0 r2.client
  { client := r3.client, trace := r0.trace ++ r1.trace ++ r2.trace ++ r3.trace }

/-- Construction step of the teardown scenario: client "c2id". -/
def removeScenarioCreate : CreateResult := mkMqttClient "c2id" "h" 1 none {}

/-- First active subscription of the teardown scenario. -/
def removeScenarioSub1 : SubscribeResult :=
  subscribe "t" 1 removeScenarioCreate.client removeScenarioCreate.bus

/-- Second active subscription of the teardown scenario. -/
def removeScenarioSub2 : SubscribeResult :=
  subscribe "t" 1 removeScenarioSub1.client removeScenarioSub1.bus

/-- Teardown scenario: `remove()` on the session holding two active
subscriptions. -/
def removeScenarioFinal : BusStepResult :=
  removeMqttClient removeScenarioSub2.client removeScenarioSub2.bus

/-- Client that enabled autoReconnect, installed a reconnect interceptor and
reached CONNECTED (which cleared the stored disconnect reason code). -/
def arClient : MqttClient :=
  handleConnectedEvent (setOnReconnectIntercepter
    (mkMqttClient "ar" "h" 1 (some { autoReconnect := some true }) {}).client)

/-! Claim theorems. -/

/-- C5 (confirmed): a disconnect event observed while the status is
CONNECTING is surfaced only through the connect-failure callback, with the
event's reason code; otherwise it is surfaced through the disconnect
callback, tagged forceDisconnected when the status is DISCONNECTED and
autoDisconnected when it is CONNECTED, together with the current retry
count. -/
theorem disconnect_event_classification (c : MqttClient) (rc : Nat) :
    (onConnectFailureDispatch rc c, onDisconnectDispatch rc c) =
      match c.connectionStatus with
      | CONNECTION_STATE.connecting => (some rc, none)
      | CONNECTION_STATE.disconnected =>
          (none, some (rc, c.options, DisconnectType.forceDisconnected, c.currentRetryCount))
      | CONNECTION_STATE.connected =>
          (none, some (rc, c.options, DisconnectType.autoDisconnected, c.currentRetryCount)) := by
  cases hc : c.connectionStatus <;>
    simp [onConnectFailureDispatch, onDisconnectDispatch, hc]

/-- C9 (confirmed): constructing a client with an empty host string creates
no session: the transport create primitive is never invoked (empty trace),
no event-bus listener is registered (the bus is returned unchanged), and —
`mkMqttClient` being total — no exception is thrown. -/
theorem empty_host_constructor_noop (clientId : String) (port : Nat)
    (options : Option MqttOptions) (bus : EventEmitter) :
    mkMqttClient clientId "" port options bus =
      { client := { clientId := clientId, host := "", port := port, options := options },
        bus := bus, trace := [] } := by
  simp [mkMqttClient]

/-- C4 (corrected): after a CONNECTED event is handled, `currentRetryCount`
is 0, but the handler does not cancel the retry timer: whatever timer was
pending stays pending, and when it later fires while the transport reports
CONNECTED, it bumps the retry count to 1 and schedules nothing further. -/
theorem connected_event_resets_count_keeps_timer (c : MqttClient) (sample : Nat)
    (io : Option MqttOptions) :
    (handleConnectedEvent c).currentRetryCount = 0 ∧
    (handleConnectedEvent c).retryTimer = c.retryTimer ∧
    fireRetryTimer CONNECTION_STATE.connected io sample (handleConnectedEvent c) =
      { client := { handleConnectedEvent c with currentRetryCount := 1, retryTimer := none },
        trace := [] } := by
  refine ⟨rfl, rfl, ?_⟩
  rfl

/-- C4 counterexample: in the bounded-retry scenario, right after `connect()`
a retry timer with delay 100 is pending; delivering and handling the
CONNECTED event leaves that timer pending, contradicting the claim that no
retry timer is pending afterwards. -/
theorem connected_event_timer_still_pending_cex :
    (handleConnectedEvent (connect none 0 (retryScenarioClient 60000)).client).currentRetryCount = 0 ∧
    (handleConnectedEvent (connect none 0 (retryScenarioClient 60000)).client).retryTimer = some 100 := by
  decide

/-- C2 (amended): `remove()` invokes the transport teardown and deregisters
exactly the listeners of the connected-event and disconnected-event
channels; listeners under any other identifier — in particular the three
listeners of every outstanding subscription — survive. -/
theorem remove_deregisters_connect_channels (c : MqttClient) (bus : EventEmitter) :
    removeMqttClient c bus =
      { bus := { bus with listeners := bus.listeners.filter (fun p => (p.2 != c.clientId ++ CONNECTED_EVENT) && (p.2 != c.clientId ++ DISCONNECTED_EVENT)) },
        trace := [TraceEv.native (NativeCall.removeMqtt c.clientId)] } := by
  simp [removeMqttClient, removeAllListeners, List.filter_filter]

/-- C2 counterexample: on a session with two active subscriptions, `remove()`
leaves all six per-subscription listeners registered — the listeners whose
identifiers carry the client's identifier prefix are not removed. -/
theorem remove_leaves_subscription_listeners_cex :
    (removeScenarioFinal.bus.listeners.filter
      (fun p => List.isPrefixOf ( getIdPrefix "c2id").data p.2.data)).length = 6 := by
  decide

/-- A session whose options set `cleanSession` explicitly to `false`, caught
in the CONNECTING state. -/
def cleanFalseClient : MqttClient :=
  { clientId := "c", host := "h", port := 1,
    options := some { cleanSession := some false },
    connectionStatus := CONNECTION_STATE.connecting }

/-- C10 (confirmed): the `connectMqtt` invocation built for the transport
always carries `cleanSession = true` — the default is applied with `||`, so
even an explicit `false` is replaced by `true` — and `connection` issues
exactly this call whenever the status is CONNECTING. -/
theorem clean_session_always_true (c : MqttClient) (sample : Nat) :
    connectCallOf c = NativeCall.connectMqtt c.clientId
        (jsOrNat (c.options.bind MqttOptions.keepAlive) 60)
        (jsOrStr (c.options.bind MqttOptions.username) "")
        (jsOrStr (c.options.bind MqttOptions.password) "") true ∧
      (c.connectionStatus = CONNECTION_STATE.connecting →
        (connection sample c).trace.head? = some (TraceEv.native (connectCallOf c))) := by
  constructor
  · show NativeCall.connectMqtt _ _ _ _ (jsOrBool (c.options.bind MqttOptions.cleanSession) true) = _
    cases hb : c.options.bind MqttOptions.cleanSession with
    | none => rfl
    | some b => cases b <;> simp [jsOrBool]
  · intro h
    simp only [connection]
    rw [if_neg (by simp [h])]
    split
    · rfl
    · split
      · rfl
      · split
        · rfl
        · rfl

/-- Witness for C10 at a client whose options set `cleanSession := false`. -/
theorem clean_session_always_true_witness :
    connectCallOf cleanFalseClient = NativeCall.connectMqtt "c" 60 "" "" true ∧
    (connection 0 cleanFalseClient).trace.head? =
      some (TraceEv.native (connectCallOf cleanFalseClient)) :=
  ⟨by decide, (clean_session_always_true cleanFalseClient 0).2 rfl⟩

/-- Helper: `connection` does not depend on the pending retry timer (the
timer handle is unconditionally overwritten when the status is
CONNECTING). -/
theorem connection_timer_irrel (c : MqttClient) (s : Nat) (t : Option Nat)
    (h : c.connectionStatus = CONNECTION_STATE.connecting) :
    connection s { c with retryTimer := t } = connection s c := by
  rw [connection, connection]
  rw [if_neg (by simp [h]), if_neg (by simp [h])]
  rfl

/-- Helper: full characterisation of a single `connect` call — the retry
count is reset to 0, the status becomes CONNECTING, the override options
are shallow-merged into the session's options, the first effect is the
transport connect call built from the merged option set, and the result
does not depend on any previously pending retry timer. -/
theorem connect_spec (c : MqttClient) (o : Option MqttOptions) (s : Nat) :
    (connect o s c).client.currentRetryCount = 0 ∧
    (connect o s c).client.connectionStatus = CONNECTION_STATE.connecting ∧
    (connect o s c).client.options = (resetOptions o c).options ∧
    (connect o s c).trace.head? =
      some (TraceEv.native (connectCallOf (resetOptions o (resetConnectVariables c)))) ∧
    (∀ t : Option Nat, connect o s { c with retryTimer := t } = connect o s c) := by
  have hopt : (resetOptions o (resetConnectVariables c)).options = (resetOptions o c).options := by
    cases o <;> rfl
  have hcount : (resetOptions o (resetConnectVariables c)).currentRetryCount = 0 := by
    cases o <;> rfl
  have hstat : (resetOptions o (resetConnectVariables c)).connectionStatus =
      CONNECTION_STATE.connecting := by
    cases o <;> rfl
  have hmk : ∀ t : Option Nat,
      resetOptions o (resetConnectVariables { c with retryTimer := t }) =
        { resetOptions o (resetConnectVariables c) with retryTimer := t } := by
    intro t; cases o <;> rfl
  have hcc : ∀ t : Option Nat, connect o s { c with retryTimer := t } = connect o s c := by
    intro t
    show connection s _ = connection s _
    rw [hmk t]
    exact connection_timer_irrel _ s t hstat
  refine ⟨?_, ?_, ?_, ?_, hcc⟩
  · show (connection s _).client.currentRetryCount = 0
    simp only [connection]
    rw [if_neg (by simp [hstat])]
    split
    · simp [hcount]
    · split
      · simp [hcount]
      · split <;> simp [hcount]
  · show (connection s _).client.connectionStatus = _
    simp only [connection]
    rw [if_neg (by simp [hstat])]
    split
    · simp [hstat]
    · split
      · simp [hstat]
      · split <;> simp [hstat]
  · show (connection s _).client.options = _
    simp only [connection]
    rw [if_neg (by simp [hstat])]
    split
    · simp [hopt]
    · split
      · simp [hopt]
      · split <;> simp [hopt]
  · show (connection s _).trace.head? = _
    simp only [connection]
    rw [if_neg (by simp [hstat])]
    split
    · rfl
    · split
      · rfl
      · split <;> rfl

/-- C6 (confirmed): a second `connect()` — in any state, in particular while
still CONNECTING — resets `currentRetryCount` to 0, discards whatever retry
timer the first call scheduled (the outcome is independent of the pending
timer, and the single timer slot holds at most one retry chain), sets the
status to CONNECTING, merges the override options into the session's
options, and the first effect issued is the transport connect call built
from the merged option set. -/
theorem connect_twice_resets_and_cancels (c : MqttClient)
    (o1 o2 : Option MqttOptions) (s1 s2 : Nat) :
    (connect o2 s2 (connect o1 s1 c).client).client.currentRetryCount = 0 ∧
    (connect o2 s2 (connect o1 s1 c).client).client.connectionStatus =
      CONNECTION_STATE.connecting ∧
    (∀ t : Option Nat,
      connect o2 s2 { (connect o1 s1 c).client with retryTimer := t } =
        connect o2 s2 (connect o1 s1 c).client) ∧
    (connect o2 s2 (connect o1 s1 c).client).client.options =
      (resetOptions o2 (connect o1 s1 c).client).options ∧
    (connect o2 s2 (connect o1 s1 c).client).trace.head? =
      some (TraceEv.native (connectCallOf
        (resetOptions o2 (resetConnectVariables (connect o1 s1 c).client)))) := by
  obtain ⟨h1, h2, h3, h4, h5⟩ := connect_spec (connect o1 s1 c).client o2 s2
  exact ⟨h1, h2, h5, h3, h4⟩

/-- C1 (amended): with autoReconnect enabled, on a session that is CONNECTED
when a disconnect event with reason code `x` arrives, the installed
reconnect interceptor is invoked with the session's STORED previous
disconnect reason code (not `x`; it is `none` right after a successful
connect, which clears it), `connect()` is invoked with whatever options the
interceptor returns shallow-merged into the session's options — independent
of the `retryCount` bound, which is not consulted — and `x` is stored as the
new previous reason code afterwards. -/
theorem auto_reconnect_uses_stored_reason (c : MqttClient) (x : Nat)
    (io : Option MqttOptions) (s : Nat)
    (hconn : c.connectionStatus = CONNECTION_STATE.connected)
    (hic : c.hasReconnectInterceptor = true) :
    handleAutoReconnectDisconnect x io s c =
      { client := { (connect io s c).client with mqtt5DisconnectReasonCode := some x },
        trace := TraceEv.reconnectInterceptorCall c.mqtt5DisconnectReasonCode ::
          (connect io s c).trace } ∧
    (connect io s c).client.options = (resetOptions io c).options := by
  constructor
  · rw [handleAutoReconnectDisconnect, if_pos hconn]
    simp [hic]
  · exact (connect_spec c io s).2.2.1

/-- Witness for C1 at the concrete reconnect-scenario client and reason
code 134. -/
theorem auto_reconnect_uses_stored_reason_witness :
    handleAutoReconnectDisconnect 134 none 0 arClient =
      { client := { (connect none 0 arClient).client with mqtt5DisconnectReasonCode := some 134 },
        trace := TraceEv.reconnectInterceptorCall arClient.mqtt5DisconnectReasonCode ::
          (connect none 0 arClient).trace } ∧
    (connect none 0 arClient).client.options = (resetOptions none arClient).options :=
  auto_reconnect_uses_stored_reason arClient 134 none 0 (by decide) (by decide)

/-- C1 counterexample: the client enabled autoReconnect, installed a
reconnect interceptor and reached CONNECTED; a disconnect event with reason
code 134 then invokes the interceptor with `none` (the stored previous
code, cleared by the successful connect), not with 134 as the claim
states. -/
theorem auto_reconnect_stale_reason_cex :
    (handleAutoReconnectDisconnect 134 none 0 arClient).trace.head? =
      some (TraceEv.reconnectInterceptorCall none) ∧
    TraceEv.reconnectInterceptorCall (some 134) ∉
      (handleAutoReconnectDisconnect 134 none 0 arClient).trace := by
  decide

set_option maxHeartbeats 2000000 in
/-- C3 (amended): for client "c1" on broker:1883 with retryCount 3,
backoffTime 100, jitter disabled and a cap of at least 400, a transport
that never confirms the connection sees exactly 3 scheduled retries — but
at delays 100ms, 100ms, 200ms (the spec-modelled backoff is called with
the pre-increment retry counts 0, 1, 2, and clamps attempt 0 up to 1) —
and after the third retry fires no further retry is scheduled. -/
theorem bounded_retry_schedule (cap : Nat) (hcap : 400 ≤ cap) :
    scheduleDelays (retryScenarioRun cap).trace = [100, 100, 200] ∧
    (retryScenarioRun cap).client.retryTimer = none ∧
    (retryScenarioRun cap).client.currentRetryCount = 3 := by
  have erun : retryScenarioRun cap =
      { client := { clientId := "c1", host := "broker", port := 1883,
                    options := some (retryScenarioOptions cap), retryTimer := none,
                    currentRetryCount := 3, mqtt5DisconnectReasonCode := none, tag := 0,
                    connectionStatus := CONNECTION_STATE.connecting,
                    hasReconnectInterceptor := false },
        trace := [TraceEv.native (NativeCall.connectMqtt "c1" 60 "" "" true),
          TraceEv.schedule (min cap 100),
          TraceEv.native (NativeCall.connectMqtt "c1" 60 "" "" true),
          TraceEv.schedule (min cap 100),
          TraceEv.native (NativeCall.connectMqtt "c1" 60 "" "" true),
          TraceEv.schedule (min cap 200),
          TraceEv.native (NativeCall.connectMqtt "c1" 60 "" "" true)] } := rfl
  rw [erun]
  refine ⟨?_, rfl, rfl⟩
  show scheduleDelays _ = _
  simp only [scheduleDelays, List.filterMap]
  rw [Nat.min_eq_right (show 100 ≤ cap by omega),
    Nat.min_eq_right (show 200 ≤ cap by omega)]

/-- Witness for C3 at the concrete cap 60000. -/
theorem bounded_retry_schedule_witness :
    400 ≤ 60000 ∧
      (scheduleDelays (retryScenarioRun 60000).trace = [100, 100, 200] ∧
        (retryScenarioRun 60000).client.retryTimer = none ∧
        (retryScenarioRun 60000).client.currentRetryCount = 3) :=
  ⟨by decide, bounded_retry_schedule 60000 (by decide)⟩

/-- C3 counterexample: with cap 60000 the three scheduled delays are 100ms,
100ms, 200ms — not the 100ms, 200ms, 400ms the claim states. -/
theorem bounded_retry_delays_cex :
    scheduleDelays (retryScenarioRun 60000).trace = [100, 100, 200] ∧
    scheduleDelays (retryScenarioRun 60000).trace ≠ [100, 200, 400] := by
  decide

/-- Helper: filtering out a listener id that was never allocated leaves a
well-formed registry's listener list unchanged. -/
theorem filter_bne_eq_self (l : List (Nat × String)) (k j : Nat)
    (h : ∀ p ∈ l, p.1 < k) (hj : k ≤ j) :
    l.filter (fun p => p.1 != j) = l := by
  rw [List.filter_eq_self]
  intro p hp
  have := h p hp
  simp only [bne_iff_ne, ne_eq]
  omega

/-- Helper: a singleton list whose element satisfies the predicate is left
unchanged by `filter`. -/
theorem filter_keep_singleton (x : Nat × String) (p : Nat × String → Bool)
    (h : p x = true) : [x].filter p = [x] := by
  simp [List.filter, h]

/-- C8 (confirmed): the `remove()` closure of a subscription handle
deregisters exactly the three event-bus registrations made for that
subscription — the listener list returns to what it was before the
`subscribe` call, so listeners of other subscriptions and the session's
connect/disconnect channels are untouched — and it performs no native
call, in particular no transport-level unsubscribe. -/
theorem subscription_remove_exact (c : MqttClient) (bus : EventEmitter)
    (topic : String) (qos : Nat) (hwf : busWF bus) :
    (subscriptionRemove (subscribe topic qos c bus).listenerIds
        (subscribe topic qos c bus).bus).bus =
      { nextId := bus.nextId + 3, listeners := bus.listeners } ∧
    (subscriptionRemove (subscribe topic qos c bus).listenerIds
        (subscribe topic qos c bus).bus).trace = [] := by
  have h0 : bus.listeners.filter (fun p => p.1 != bus.nextId) = bus.listeners :=
    filter_bne_eq_self _ bus.nextId _ hwf (by omega)
  have h1 : bus.listeners.filter (fun p => p.1 != bus.nextId + 1) = bus.listeners :=
    filter_bne_eq_self _ bus.nextId _ hwf (by omega)
  have h2 : bus.listeners.filter (fun p => p.1 != bus.nextId + 2) = bus.listeners :=
    filter_bne_eq_self _ bus.nextId _ hwf (by omega)
  refine ⟨?_, rfl⟩
  simp only [subscribe, getMqttSubscribeEventId, addListener, subscriptionRemove,
    removeListener, List.filter_append, h0, h1, h2]
  simp [bne_iff_ne]

/-- Witness for C8 on the constructed client "c2id" with its one
registered connected-event listener. -/
theorem subscription_remove_exact_witness :
    busWF removeScenarioCreate.bus ∧
      ((subscriptionRemove (subscribe "t" 1 removeScenarioCreate.client removeScenarioCreate.bus).listenerIds
          (subscribe "t" 1 removeScenarioCreate.client removeScenarioCreate.bus).bus).bus =
        { nextId := removeScenarioCreate.bus.nextId + 3,
          listeners := removeScenarioCreate.bus.listeners } ∧
      (subscriptionRemove (subscribe "t" 1 removeScenarioCreate.client removeScenarioCreate.bus).listenerIds
          (subscribe "t" 1 removeScenarioCreate.client removeScenarioCreate.bus).bus).trace = []) :=
  ⟨by decide, subscription_remove_exact removeScenarioCreate.client removeScenarioCreate.bus
    "t" 1 (by decide)⟩

/-- C7 (confirmed): two successive `subscribe()` calls for the same topic
and QoS yield distinct event identifiers of the form
clientPrefix#subscribe_mqtt#topic#qos#tag, with the session tag strictly
increasing across the calls, and each call's three listeners are removable
independently: removing either handle leaves exactly the original
listeners plus the three listeners of the other subscription. -/
theorem subscribe_twice_distinct (c : MqttClient) (bus : EventEmitter)
    (topic : String) (qos : Nat) (r1 r2 : SubscribeResult) (hwf : busWF bus)
    (h1 : r1 = subscribe topic qos c bus)
    (h2 : r2 = subscribe topic qos r1.client r1.bus) :
    r1.eventId ≠ r2.eventId ∧
    r1.client.tag = c.tag + 1 ∧
    r2.client.tag = c.tag + 2 ∧
    (subscriptionRemove r1.listenerIds r2.bus).bus.listeners =
      bus.listeners ++ [(bus.nextId + 3, r2.eventId),
        (bus.nextId + 4, r2.eventId ++ SUBSCRIPTION_SUCCESS_EVENT),
        (bus.nextId + 5, r2.eventId ++ SUBSCRIPTION_FAILED_EVENT)] ∧
    (subscriptionRemove r2.listenerIds r2.bus).bus.listeners =
      bus.listeners ++ [(bus.nextId, r1.eventId),
        (bus.nextId + 1, r1.eventId ++ SUBSCRIPTION_SUCCESS_EVENT),
        (bus.nextId + 2, r1.eventId ++ SUBSCRIPTION_FAILED_EVENT)] := by
  subst h2
  subst h1
  have h0 : ∀ j : Nat, bus.nextId ≤ j →
      bus.listeners.filter (fun p => p.1 != j) = bus.listeners := fun j hj =>
    filter_bne_eq_self _ bus.nextId _ hwf hj
  refine ⟨?_, rfl, rfl, ?_, ?_⟩
  · show getIdPrefix c.clientId ++ "#subscribe_mqtt#" ++ topic ++ "#" ++
        Nat.repr qos ++ "#" ++ Nat.repr (c.tag + 1) ≠
      getIdPrefix c.clientId ++ "#subscribe_mqtt#" ++ topic ++ "#" ++
        Nat.repr qos ++ "#" ++ Nat.repr (c.tag + 1 + 1)
    exact append_natRepr_ne _ (by omega)
  · simp only [subscribe, getMqttSubscribeEventId, addListener, subscriptionRemove,
      removeListener, List.filter_append, h0 bus.nextId (by omega),
      h0 (bus.nextId + 1) (by omega), h0 (bus.nextId + 2) (by omega)]
    simp [bne_iff_ne]
    repeat rw [filter_keep_singleton _ _ (by simp [Bool.and_eq_true, bne_iff_ne]; omega)]
    try simp
    try omega
  · simp only [subscribe, getMqttSubscribeEventId, addListener, subscriptionRemove,
      removeListener, List.filter_append, h0 (bus.nextId + 3) (by omega),
      h0 (bus.nextId + 4) (by omega), h0 (bus.nextId + 5) (by omega)]
    simp [bne_iff_ne]
    repeat rw [filter_keep_singleton _ _ (by simp [Bool.and_eq_true, bne_iff_ne]; omega)]
    try simp
    try omega

/-- Witness for C7: the two subscriptions of the teardown scenario. -/
theorem subscribe_twice_distinct_witness :
    removeScenarioSub1.eventId ≠ removeScenarioSub2.eventId ∧
    removeScenarioSub1.client.tag = removeScenarioCreate.client.tag + 1 ∧
    removeScenarioSub2.client.tag = removeScenarioCreate.client.tag + 2 ∧
    (subscriptionRemove removeScenarioSub1.listenerIds removeScenarioSub2.bus).bus.listeners =
      removeScenarioCreate.bus.listeners ++
        [(removeScenarioCreate.bus.nextId + 3, removeScenarioSub2.eventId),
          (removeScenarioCreate.bus.nextId + 4, removeScenarioSub2.eventId ++ SUBSCRIPTION_SUCCESS_EVENT),
          (removeScenarioCreate.bus.nextId + 5, removeScenarioSub2.eventId ++ SUBSCRIPTION_FAILED_EVENT)] ∧
    (subscriptionRemove removeScenarioSub2.listenerIds removeScenarioSub2.bus).bus.listeners =
      removeScenarioCreate.bus.listeners ++
        [(removeScenarioCreate.bus.nextId, removeScenarioSub1.eventId),
          (removeScenarioCreate.bus.nextId + 1, removeScenarioSub1.eventId ++ SUBSCRIPTION_SUCCESS_EVENT),
          (removeScenarioCreate.bus.nextId + 2, removeScenarioSub1.eventId ++ SUBSCRIPTION_FAILED_EVENT)] :=
  subscribe_twice_distinct removeScenarioCreate.client removeScenarioCreate.bus "t" 1
    removeScenarioSub1 removeScenarioSub2 (by decide) rfl rfl

end Mqtt
